import Mathlib

/-!
# Verification of the replay engine (arma-regression-test-web-ext)

Shallow embedding of the replay engine of a browser-automation extension:
the selector resolver (`resolveSelector`, `waitForSelector` from
`src/extension/shared/selector-resolver.js`), the step executor
(`executeStep` and its per-step-type helpers from
`src/extension/shared/step-executor.js`), the debugger lifecycle detach
handler (`chrome.debugger.onDetach` listener), and the session
orchestrator (`runRecording`).

Modelling conventions:
* Protocol round-trips (CDP calls) are modelled as entries of a `Call`
  trace; the page / browser side is an oracle (`Env`, `WaitEnv`,
  `ResolveEnv`) supplying the values the protocol would return.
* Time is advanced only by explicit sleeps; protocol calls are
  instantaneous in the model, so in `waitForSelector` the clock after
  `iter` poll iterations reads `500 * iter` ms (POLL_INTERVAL_MS = 500).
* JavaScript `??` (nullish coalescing) is `Option.getD`; JavaScript `||`
  falsiness of the empty string is modelled explicitly where the source
  relies on it.
* URLs are modelled structurally (origin, path, query, fragment) rather
  than as unparsed strings; `new URL` never fails on structured input,
  so the `catch` branch of `normalizeUrl` is unreachable in the model.
-/

namespace ArmaReplay

/-- Bounding box returned by `getBoundingClientRect` style queries. -/
structure Box where
  x : Int
  y : Int
  w : Int
  h : Int
deriving Repr, DecidableEq

/-- A structured URL: `new URL(u)` split into origin, pathname, search, hash. -/
structure Url where
  origin : String
  path : String
  query : String
  fragment : String
deriving Repr, DecidableEq

/-- `normalizeUrl` (step-executor.js lines 105-112): keep
`origin + pathname + search`, dropping the fragment. -/
def normalizeUrl (u : Url) : String × String × String :=
  (u.origin, u.path, u.query)

-- ── Selector normalisation (selector-resolver.js `normalizeSelectors`) ────────

/-- `normalizeSelectors` (selector-resolver.js lines 319-325): keep the first
entry of each candidate group, dropping groups whose first entry is missing or
empty.  (The flat `string[]` coercion of the source is a dynamic-typing detail;
the typed model always receives the nested form.) -/
def normalizeSelectors (raw : List (List String)) : List String :=
  (raw.filterMap List.head?).filter (fun s => !s.isEmpty)

/-- Whether a selector contains the Puppeteer deep combinator `a >>> b`
(source: `selectorStr.includes(' >>> ')`). -/
def hasDeepCombinator (s : String) : Bool :=
  (s.splitOn " >>> ").length != 1

/-- Eligibility for the tier-2 native CDP `DOM.querySelector` fallback
(source: `!c[0].includes('/') && !c[0].includes(' >>> ')`): plain CSS
selectors only — no strategy prefix (which always contains `/`) and no deep
combinator. -/
def cssEligible (s : String) : Bool :=
  !(s.contains '/') && !(hasDeepCombinator s)

-- ── Outcomes of a single in-page resolution attempt ───────────────────────────

/-- Result of one `tryResolve(candidate)` call: the element was found with a
box, the evaluation returned `null` (element absent, CDP alive), or the call
threw a protocol-level error (identified by an error code). -/
inductive PrimaryOut where
  | found (b : Box)
  | notFound
  | err (e : Nat)
deriving Repr, DecidableEq

/-- Boolean test used in decidable premises: this attempt threw. -/
def PrimaryOut.isErr : PrimaryOut → Bool
  | .err _ => true
  | _ => false

/-- Boolean test used in decidable premises: this attempt found the element. -/
def PrimaryOut.isFound : PrimaryOut → Bool
  | .found _ => true
  | _ => false

-- ── waitForSelector (selector-resolver.js lines 264-315) ──────────────────────

/-- Oracle for `waitForSelector`: the outcome of each primary in-page attempt
and of each tier-2 CDP DOM fallback attempt, per poll iteration and per
selector string (tier-2 errors are swallowed by `tryResolveCDPDom`, so its
outcome is just `Option Box`). -/
structure WaitEnv where
  primary : Nat → String → PrimaryOut
  fallback : Nat → String → Option Box

/-- One pass over the primary candidates of a poll iteration, mirroring the
`for (const candidate of normalized)` loop: returns the first found box if
any, else the final `allPrimaryThrew` flag (input flag starts
`normalized.length > 0`, flips to `false` on any `null` result) and the final
`lastCdpErr`. -/
def scanPrimary (out : String → PrimaryOut) :
    List String → Bool → Option Nat → Option Box × Bool × Option Nat
  | [], allThrew, lastErr => (none, allThrew, lastErr)
  | s :: rest, allThrew, lastErr =>
    match out s with
    | .found b => (some b, allThrew, lastErr)
    | .notFound => scanPrimary out rest false lastErr
    | .err e => scanPrimary out rest allThrew (some e)

/-- Outcome of a `waitForSelector` call, tagged with the poll iteration at
which the call returned or threw (elapsed time = `500 * iter` ms). -/
inductive WaitOutcome where
  | success (b : Box) (iter : Nat)
  | sessionError (e : Option Nat) (iter : Nat)
  | timedOut (iter : Nat)
deriving Repr, DecidableEq

/-- The `while (Date.now() < deadline)` polling loop of `waitForSelector`
(selector-resolver.js lines 277-311).  `iter` counts completed sleeps, so the
clock reads `500 * iter`; `consec` is `consecutiveAllThrew`, `lastErr` is
`lastCdpErr`.  Each iteration scans the primary candidates, then the CSS
candidates through the CDP DOM fallback, then applies the two-consecutive-
all-threw fail-fast check before sleeping `POLL_INTERVAL_MS`. -/
def waitLoop (env : WaitEnv) (cands cssCands : List String) (timeout : Nat)
    (iter consec : Nat) (lastErr : Option Nat) : WaitOutcome :=
  if _h : 500 * iter < timeout then
    match scanPrimary (env.primary iter) cands (!cands.isEmpty) lastErr with
    | (some b, _, _) => .success b iter
    | (none, allThrew, lastErr') =>
      match cssCands.findSome? (env.fallback iter) with
      | some b => .success b iter
      | none =>
        if allThrew then
          if consec + 1 ≥ 2 then .sessionError lastErr' iter
          else waitLoop env cands cssCands timeout (iter + 1) (consec + 1) lastErr'
        else waitLoop env cands cssCands timeout (iter + 1) 0 lastErr'
  else .timedOut iter
termination_by timeout - 500 * iter
decreasing_by all_goals omega

/-- `STEP_TIMEOUT_MS` (constants.js): default `waitForSelector` timeout. -/
def STEP_TIMEOUT_MS : Nat := 30000

/-- `POLL_INTERVAL_MS` (constants.js): `waitForSelector` polling interval. -/
def POLL_INTERVAL_MS : Nat := 500

/-- `waitForSelector(selectors, …, timeoutMs = STEP_TIMEOUT_MS)`
(selector-resolver.js lines 264-315): normalise the candidates, pre-filter
the CSS candidates for the CDP fallback, and run the polling loop. -/
def waitForSelector (env : WaitEnv) (selectors : List (List String))
    (timeout : Nat := STEP_TIMEOUT_MS) : WaitOutcome :=
  let cands := normalizeSelectors selectors
  waitLoop env cands (cands.filter cssEligible) timeout 0 0 none

-- ── resolveSelector (selector-resolver.js lines 235-259) ──────────────────────

/-- Oracle for a single `resolveSelector` call: per selector string, the
outcome of the in-page tier-1 attempt (exceptions are caught and mean
"try next candidate") and of the tier-2 CDP DOM fallback. -/
structure ResolveEnv where
  tier1 : String → PrimaryOut
  tier2 : String → Option Box

/-- Tier-1 loop of `resolveSelector`: try each candidate in order, stop at the
first found box; also return the list of candidates actually attempted. -/
def runTier1 (out : String → PrimaryOut) : List String → Option Box × List String
  | [] => (none, [])
  | s :: rest =>
    match out s with
    | .found b => (some b, [s])
    | _ => ((runTier1 out rest).1, s :: (runTier1 out rest).2)

/-- Tier-2 loop of `resolveSelector`: try the CDP DOM fallback on each
eligible candidate in order, stop at the first hit; also return the list of
candidates attempted. -/
def runTier2 (out : String → Option Box) : List String → Option Box × List String
  | [] => (none, [])
  | s :: rest =>
    match out s with
    | some b => (some b, [s])
    | none => ((runTier2 out rest).1, s :: (runTier2 out rest).2)

/-- Result value of `resolveSelector`: a box, or the thrown
`Selector not found. Tried: …` error carrying the candidates listed. -/
inductive ResolveResult where
  | ok (b : Box)
  | notFoundErr (tried : List String)
deriving Repr, DecidableEq

/-- Result of `resolveSelector` plus the attempt trace of both tiers. -/
structure ResolveOut where
  result : ResolveResult
  tier1Tried : List String
  tier2Tried : List String
deriving Repr, DecidableEq

/-- `resolveSelector` (selector-resolver.js lines 235-259): tier-1 in-page
attempts over all normalised candidates in array order; if none succeeds,
tier-2 native CDP `DOM.querySelector` over the CSS-eligible candidates; if
both tiers are exhausted, throw `Selector not found` listing every candidate
(`normalized.map(c => c[0])`). -/
def resolveSelector (env : ResolveEnv) (selectors : List (List String)) : ResolveOut :=
  let cands := normalizeSelectors selectors
  match runTier1 env.tier1 cands with
  | (some b, tr) => ⟨.ok b, tr, []⟩
  | (none, tr) =>
    match runTier2 env.tier2 (cands.filter cssEligible) with
    | (some b, tr2) => ⟨.ok b, tr, tr2⟩
    | (none, tr2) => ⟨.notFoundErr cands, tr, tr2⟩

-- ── Step executor data model (step-executor.js) ──────────────────────────────

/-- A recording step (the JS step object's fields used by the executor).
Optional JS fields are `Option`; `step.frame` is an index path. -/
structure Step where
  type : String
  url : Option Url := none
  value : Option String := none
  label : Option String := none
  selectors : List (List String) := []
  frame : List Nat := []
  variableName : String := ""
  snapshotValue : Option String := none
  fallbackValue : Option String := none
  defaultValue : Option String := none
  offsetX : Option Int := none
  offsetY : Option Int := none
  duration : Option Nat := none
  assertedEvents : List String := []
  key : String := ""
  width : Option Nat := none
  height : Option Nat := none
  deviceScaleFactor : Option Nat := none
  isMobile : Option Bool := none
deriving Repr, DecidableEq

/-- One protocol-level or browser-API side effect of the executor.  Calls on a
resolved element (`Runtime.callFunctionOn`) carry the object id and a tag
naming the source function body; whole-page evaluations carry a tag naming the
evaluated expression. -/
inductive Call where
  | tabsGet
  | tabsUpdateBlank
  | attach
  | enableDomain (d : String)
  | detach
  | pageNavigate (u : Url)
  | waitForNav (timeoutMs : Nat)
  | sleep (ms : Nat)
  | dispatchMouse (kind : String) (x y : Int) (button : String) (clickCount : Nat)
  | dispatchKey (kind key : String) (modifiers : Nat)
  | insertText (text : String)
  | callFunctionOn (objectId : Nat) (fn : String)
  | runtimeEvaluate (tag : String)
  | setDeviceMetrics (width height scale : Nat) (mobile : Bool)
  | resolveObject (selectors : List (List String))
  | resolveSel (selectors : List (List String))
  | waitForSel (selectors : List (List String))
deriving Repr, DecidableEq

/-- Oracle for the page/browser side of one `executeStep` call: what the
protocol round-trips would return.  `objectId` abstracts `resolveObjectId`,
`resolveBox` abstracts `resolveSelector` (`none` = it throws NotFound),
`waitOk` abstracts `waitForSelector` success, `rect` abstracts
`scrollIntoViewAndGetRect`, `autocomplete` gives the centre point the
autocomplete scan of `tryClickAutocompleteOption` would return for a target
text. -/
structure Env where
  objectId : List (List String) → Option Nat
  rect : Nat → Option Box
  resolveBox : List (List String) → Option Box
  tagName : Nat → String
  autocomplete : String → Option (Int × Int)
  tabStatus : String
  tabUrl : Url
  tabPendingUrl : Option Url
  settledUrl : Url
  selectionText : Option String
  elementValue : Nat → Option String
  waitOk : List (List String) → Bool
  pollingHost : Bool
  readyState : String

/-- Run-scoped variable maps (`clipboardVars`, `variables`): association lists
keyed by variable name, newest binding first. -/
abbrev VarMap := List (String × String)

/-- `Map.get` on a variable map (`undefined` = `none`). -/
def mapGet (m : VarMap) (k : String) : Option String :=
  (List.find? (fun p => p.1 == k) m).map (·.2)

/-- `Map.set` on a variable map. -/
def mapSet (m : VarMap) (k v : String) : VarMap :=
  (k, v) :: List.filter (fun p => p.1 != k) m

/-- `NAV_TIMEOUT_MS` (constants.js): navigation settle timeout. -/
def NAV_TIMEOUT_MS : Nat := 20000

/-- `resolveContext` (step-executor.js lines 44-52): returns `null` when the
step has no frame path, and — per the source's TODO — also returns `null` for
frame-scoped steps, letting the CDP call use the main context. -/
def resolveContext (step : Step) (_fcm : List (String × Nat)) : Option Nat :=
  if step.frame.isEmpty then none else none

/-- `execSetViewport` (lines 56-63). -/
def execSetViewport (step : Step) : Option String × List Call :=
  (none, [.setDeviceMetrics (step.width.getD 1280) (step.height.getD 720)
            (step.deviceScaleFactor.getD 1) (step.isMobile.getD false)])

/-- `execNavigate` (step-executor.js lines 67-103): compare the tab's
status/URL (normalised, fragment ignored) against the target; await in-flight
loads; no-op with a short settle when already at the target and idle;
otherwise issue `Page.navigate` and await load with a long settle. -/
def execNavigate (step : Step) (env : Env) : Option String × List Call :=
  match step.url with
  | none => (none, [])
  | some target =>
    if env.tabStatus = "loading" then
      let pending := env.tabPendingUrl.getD env.tabUrl
      if normalizeUrl pending = normalizeUrl target then
        (none, [.tabsGet, .waitForNav NAV_TIMEOUT_MS, .sleep 600])
      else if normalizeUrl env.settledUrl = normalizeUrl target then
        (none, [.tabsGet, .waitForNav NAV_TIMEOUT_MS, .tabsGet, .sleep 600])
      else
        (none, [.tabsGet, .waitForNav NAV_TIMEOUT_MS, .tabsGet,
                .pageNavigate target, .waitForNav NAV_TIMEOUT_MS, .sleep 600])
    else if normalizeUrl env.tabUrl = normalizeUrl target then
      (none, [.tabsGet, .sleep 300])
    else
      (none, [.tabsGet, .pageNavigate target, .waitForNav NAV_TIMEOUT_MS, .sleep 600])

/-- Shared preamble of `execClick` / `execDoubleClick` / `execHover`
(lines 139-158 etc.): `resolveObjectId`, then `scrollIntoViewAndGetRect`
(scroll-into-view call, 100 ms settle, fresh bounding rect); when either
fails, fall back to `resolveSelector`.  Returns the resolved object id, the
click point (element position plus recorded offset; `none` when even the
fallback throws), and the calls made. -/
def clickPoint (step : Step) (env : Env) :
    Option Nat × Option (Int × Int) × List Call :=
  let ox := step.offsetX.getD 0
  let oy := step.offsetY.getD 0
  match env.objectId step.selectors with
  | some o =>
    let calls := [Call.resolveObject step.selectors, .callFunctionOn o "scrollIntoView",
                  .sleep 100, .callFunctionOn o "getRect"]
    match env.rect o with
    | some b => (some o, some (b.x + ox, b.y + oy), calls)
    | none =>
      match env.resolveBox step.selectors with
      | some b => (some o, some (b.x + ox, b.y + oy), calls ++ [.resolveSel step.selectors])
      | none => (some o, none, calls ++ [.resolveSel step.selectors])
  | none =>
    match env.resolveBox step.selectors with
    | some b => (none, some (b.x + ox, b.y + oy),
                 [.resolveObject step.selectors, .resolveSel step.selectors])
    | none => (none, none, [.resolveObject step.selectors, .resolveSel step.selectors])

/-- `execClick` (step-executor.js lines 139-208): move; 80 ms settle for
mouseenter handlers; explicit focus on the element (when an object id was
resolved); press; optional recorded press duration; release; then synthetic
JS mouse events on the element (when an object id was resolved); finally the
navigation wait when the step asserts a navigation. -/
def execClick (step : Step) (env : Env) : Option String × List Call :=
  match clickPoint step env with
  | (_, none, calls0) => (some "Selector not found", calls0)
  | (oid, some (cx, cy), calls0) =>
    let hasNav := step.assertedEvents.contains "navigation"
    let focusCalls := match oid with
      | some o => [Call.callFunctionOn o "focus"]
      | none => []
    let synthCalls := match oid with
      | some o => [Call.callFunctionOn o "syntheticMouseEvents"]
      | none => []
    let durSleep := match step.duration with
      | some d => if d ≠ 0 then [Call.sleep d] else []
      | none => []
    (none,
      calls0 ++ [.dispatchMouse "mouseMoved" cx cy "none" 0, .sleep 80]
        ++ focusCalls
        ++ [.dispatchMouse "mousePressed" cx cy "left" 1] ++ durSleep
        ++ [.dispatchMouse "mouseReleased" cx cy "left" 1]
        ++ synthCalls
        ++ (if hasNav then [Call.waitForNav NAV_TIMEOUT_MS, Call.sleep 300] else []))

/-- `execDoubleClick` (step-executor.js lines 212-233): move, then
press/release twice with click counts 1 then 2 — no settle delay, no focus
call, no synthetic JS events. -/
def execDoubleClick (step : Step) (env : Env) : Option String × List Call :=
  match clickPoint step env with
  | (_, none, calls0) => (some "Selector not found", calls0)
  | (_, some (cx, cy), calls0) =>
    (none,
      calls0 ++ [.dispatchMouse "mouseMoved" cx cy "none" 0,
        .dispatchMouse "mousePressed" cx cy "left" 1,
        .dispatchMouse "mouseReleased" cx cy "left" 1,
        .dispatchMouse "mousePressed" cx cy "left" 2,
        .dispatchMouse "mouseReleased" cx cy "left" 2])

/-- `execHover` (lines 237-253): move only. -/
def execHover (step : Step) (env : Env) : Option String × List Call :=
  match clickPoint step env with
  | (_, none, calls0) => (some "Selector not found", calls0)
  | (_, some (cx, cy), calls0) =>
    (none, calls0 ++ [.dispatchMouse "mouseMoved" cx cy "none" 0])

/-- `execChange` (step-executor.js lines 257-310): resolve the element, read
its tag; a `<select>` (or any step carrying a `label`) gets value-set plus a
non-bubbling change; a text input gets focus/select-all/clear, then
`Input.insertText` of `value.slice(0, 10)` (only the first 10 characters —
the surrounding comment says "insert full text"), then input/change/keydown
events, then the autocomplete option scan-and-click. -/
def execChange (step : Step) (env : Env) : Option String × List Call :=
  let value := step.value.getD ""
  match env.objectId step.selectors with
  | none => (some "Could not resolve element for change step", [.resolveObject step.selectors])
  | some o =>
    let tagCalls := [Call.resolveObject step.selectors, .callFunctionOn o "tagName"]
    if env.tagName o = "SELECT" || step.label.isSome then
      (none, tagCalls ++ [.callFunctionOn o "setValueDispatchChange"])
    else
      let ins := if value ≠ "" then [Call.insertText (value.take 10)] else []
      let auto := Call.runtimeEvaluate "autocompleteScan" ::
        (match env.autocomplete value with
         | some (ax, ay) =>
           [Call.dispatchMouse "mouseMoved" ax ay "none" 0, .sleep 50,
            .dispatchMouse "mousePressed" ax ay "left" 1,
            .dispatchMouse "mouseReleased" ax ay "left" 1]
         | none => [])
      (none, tagCalls ++ [.callFunctionOn o "focusSelectClear"] ++ ins
        ++ [.callFunctionOn o "dispatchInputChangeKeydown"] ++ auto)

/-- `execSelectOption` (lines 314-326): set value and dispatch a non-bubbling
change on the resolved element. -/
def execSelectOption (step : Step) (env : Env) : Option String × List Call :=
  match env.objectId step.selectors with
  | none => (some "selectOption: could not find select", [.resolveObject step.selectors])
  | some o => (none, [.resolveObject step.selectors, .callFunctionOn o "setValueDispatchChange"])

/-- `KEY_MODIFIERS` (lines 392-397): modifier bitmask per named key. -/
def keyModifiers (k : String) : Nat :=
  if k = "Alt" then 1
  else if k = "Control" then 2
  else if k = "Meta" then 4
  else if k = "Shift" then 8
  else 0

/-- `execKeyDown` (lines 399-406). -/
def execKeyDown (step : Step) : Option String × List Call :=
  (none, [.dispatchKey "keyDown" step.key (keyModifiers step.key)])

/-- `execKeyUp` (lines 408-415). -/
def execKeyUp (step : Step) : Option String × List Call :=
  (none, [.dispatchKey "keyUp" step.key (keyModifiers step.key)])

/-- `execWaitForElement` (lines 419-421): delegates to the resolver's polling
wait; the oracle's `waitOk` abstracts the `waitForSelector` outcome. -/
def execWaitForElement (step : Step) (env : Env) : Option String × List Call :=
  (if env.waitOk step.selectors then none else some "waitForElement timed out",
   [.waitForSel step.selectors])

/-- `execWaitForPageLoad` (lines 423-453): known polling hosts get a fixed
3 s sleep; otherwise poll `document.readyState` — `complete` is done,
`interactive` is good enough after a 2 s settle, and the wait never rejects
(soft timeout; the poll loop is abstracted to one probe of the oracle's
constant `readyState`, with the not-ready branch standing for the silent
timeout path). -/
def execWaitForPageLoad (env : Env) : Option String × List Call :=
  if env.pollingHost then (none, [.tabsGet, .sleep 3000])
  else if env.readyState = "complete" then
    (none, [.tabsGet, .runtimeEvaluate "readyState"])
  else if env.readyState = "interactive" then
    (none, [.tabsGet, .runtimeEvaluate "readyState", .sleep 2000])
  else (none, [.tabsGet, .runtimeEvaluate "readyState", .sleep 500])

/-- `execScroll` (lines 457-473): wheel at the element when selectors are
given and resolve (falling back to a page scroll when resolution throws),
else scroll the page. -/
def execScroll (step : Step) (env : Env) : Option String × List Call :=
  if step.selectors.isEmpty then (none, [.runtimeEvaluate "scrollBy"])
  else
    match env.resolveBox step.selectors with
    | some b => (none, [.resolveSel step.selectors,
                        .dispatchMouse "mouseWheel" b.x b.y "none" 0])
    | none => (none, [.resolveSel step.selectors, .runtimeEvaluate "scrollBy"])

/-- `execCopy` (lines 477-498): capture the current selection (or focused
input selection/value) and store it under the step's variable name; the
recorded `snapshotValue` is the fallback when the evaluation yields nothing. -/
def execCopy (step : Step) (env : Env) (clip : VarMap) :
    Option String × List Call × VarMap :=
  let captured := env.selectionText.getD (step.snapshotValue.getD "")
  (none, [.runtimeEvaluate "captureSelection"], mapSet clip step.variableName captured)

/-- `execPaste` (step-executor.js lines 502-530): read the clipboard variable
(falling back to the recorded `snapshotValue`); an empty effective text
returns immediately with no element work; else focus/clear, insert the text,
and fire input/change events on the target. -/
def execPaste (step : Step) (env : Env) (clip : VarMap) : Option String × List Call :=
  let text := (mapGet clip step.variableName).getD (step.snapshotValue.getD "")
  if text = "" then (none, [])
  else
    match env.objectId step.selectors with
    | none => (some "Could not resolve paste target", [.resolveObject step.selectors])
    | some o =>
      (none, [.resolveObject step.selectors, .callFunctionOn o "focusSelectClear",
              .insertText text, .callFunctionOn o "setValueDispatchInputChange"])

/-- `execSaveVariable` (lines 534-559): read the element's live value
(input/select value or trimmed text content); keep the recorded
`defaultValue` when resolution fails or the live value is null/empty. -/
def execSaveVariable (step : Step) (env : Env) (vars : VarMap) :
    Option String × List Call × VarMap :=
  let fallback := step.defaultValue.getD ""
  match env.objectId step.selectors with
  | none => (none, [.resolveObject step.selectors], mapSet vars step.variableName fallback)
  | some o =>
    let v := match env.elementValue o with
      | some s => if s ≠ "" then s else fallback
      | none => fallback
    (none, [.resolveObject step.selectors, .callFunctionOn o "readValue"],
     mapSet vars step.variableName v)

/-- `execPasteVariable` (step-executor.js lines 563-592): symmetric to
`execPaste`, reading the user-variable map with the recorded `fallbackValue`
as fallback. -/
def execPasteVariable (step : Step) (env : Env) (vars : VarMap) : Option String × List Call :=
  let text := (mapGet vars step.variableName).getD (step.fallbackValue.getD "")
  if text = "" then (none, [])
  else
    match env.objectId step.selectors with
    | none => (some "Could not resolve paste target", [.resolveObject step.selectors])
    | some o =>
      (none, [.resolveObject step.selectors, .callFunctionOn o "focusSelectClear",
              .insertText text, .callFunctionOn o "setValueDispatchInputChange"])

/-- Output of one `executeStep` call: the thrown error (if any), the protocol
call trace, and the updated run-scoped variable maps. -/
structure ExecOut where
  error : Option String
  calls : List Call
  clip : VarMap
  vars : VarMap
deriving Repr, DecidableEq

/-- `executeStep` (step-executor.js lines 14-40): resolve the frame context,
then dispatch on `step.type`; unknown types are skipped with a warning and
never fail. -/
def executeStep (step : Step) (env : Env) (fcm : List (String × Nat))
    (clip vars : VarMap) : ExecOut :=
  let _contextId := resolveContext step fcm
  if step.type = "setViewport" then let r := execSetViewport step; ⟨r.1, r.2, clip, vars⟩
  else if step.type = "navigate" then let r := execNavigate step env; ⟨r.1, r.2, clip, vars⟩
  else if step.type = "click" then let r := execClick step env; ⟨r.1, r.2, clip, vars⟩
  else if step.type = "doubleClick" then let r := execDoubleClick step env; ⟨r.1, r.2, clip, vars⟩
  else if step.type = "hover" then let r := execHover step env; ⟨r.1, r.2, clip, vars⟩
  else if step.type = "change" then let r := execChange step env; ⟨r.1, r.2, clip, vars⟩
  else if step.type = "selectOption" then let r := execSelectOption step env; ⟨r.1, r.2, clip, vars⟩
  else if step.type = "keyDown" then let r := execKeyDown step; ⟨r.1, r.2, clip, vars⟩
  else if step.type = "keyUp" then let r := execKeyUp step; ⟨r.1, r.2, clip, vars⟩
  else if step.type = "waitForElement" then let r := execWaitForElement step env; ⟨r.1, r.2, clip, vars⟩
  else if step.type = "waitForPageLoad" then let r := execWaitForPageLoad env; ⟨r.1, r.2, clip, vars⟩
  else if step.type = "scroll" then let r := execScroll step env; ⟨r.1, r.2, clip, vars⟩
  else if step.type = "copy" then let r := execCopy step env clip; ⟨r.1, r.2.1, r.2.2, vars⟩
  else if step.type = "paste" then let r := execPaste step env clip; ⟨r.1, r.2, clip, vars⟩
  else if step.type = "saveVariable" then let r := execSaveVariable step env vars; ⟨r.1, r.2.1, clip, r.2.2⟩
  else if step.type = "pasteVariable" then let r := execPasteVariable step env vars; ⟨r.1, r.2, clip, vars⟩
  else if step.type = "wait" then ⟨none, [.sleep (step.duration.getD 0)], clip, vars⟩
  else ⟨none, [], clip, vars⟩

-- ── Engine state and debugger lifecycle (unnamed/part_000, part_002) ──────────

/-- The engine's module-level mutable state: `replayState`
(`active/aborted/tabId/reattachPromise`) plus the run-scoped stores
(`clipboardVars`, `variables`, `frameContextMap`).  `reattachInFlight` models
whether `reattachPromise` holds an in-flight future. -/
structure EngineState where
  active : Bool
  aborted : Bool
  tabId : Option Nat
  reattachInFlight : Bool
  clip : VarMap
  vars : VarMap
  fcm : List (String × Nat)
deriving Repr, DecidableEq

/-- The `chrome.debugger.onDetach` listener (unnamed/part_000 lines 13-36):
ignore detaches for other tabs or idle sessions; explicit user cancellation
(`canceled_by_user`) aborts with no recovery; otherwise start a reattachment
episode unless one is already in flight.  The returned flag says whether a
new reattachment episode was started by this notification. -/
def onDetach (st : EngineState) (sourceTabId : Nat) (reason : String) :
    EngineState × Bool :=
  if !(st.tabId == some sourceTabId) || !st.active then (st, false)
  else if reason == "canceled_by_user" then ({ st with aborted := true }, false)
  else if st.reattachInFlight then (st, false)
  else ({ st with reattachInFlight := true }, true)

-- ── Session orchestrator (unnamed/part_002 `runRecording`) ────────────────────

/-- Step types that get an auto-injected `waitForElement` before them
(part_002 line 61). -/
def preWaitTypes : List String := ["click", "doubleClick", "change", "selectOption"]

/-- Step types that get an auto-injected `waitForPageLoad` after them
(part_002 line 92). -/
def postWaitTypes : List String := ["navigate", "selectOption"]

/-- Output of the orchestrator's step loop. -/
structure LoopOut where
  calls : List Call
  clip : VarMap
  vars : VarMap
  executed : List Nat
  failed : Option (Nat × String × String)
  passedCount : Nat
deriving Repr, DecidableEq

/-- The step loop of `runRecording` (part_002 lines 38-158), for runs during
which no detach event fires (so the reattachment gate stays empty and
`aborted` stays false): run the auto pre-wait (its failure swallowed), then
the step itself (failure fatal, halting the loop with a `failedStep`), then
the auto post-wait (failure swallowed), then the 50 ms inter-step gap. -/
def runLoop (env : Env) (fcm : List (String × Nat)) :
    List Step → Nat → VarMap → VarMap → LoopOut
  | [], _, clip, vars => ⟨[], clip, vars, [], none, 0⟩
  | step :: rest, i, clip, vars =>
    let pre :=
      if preWaitTypes.contains step.type && !step.selectors.isEmpty then
        (executeStep { type := "waitForElement", selectors := step.selectors }
          env fcm clip vars).calls
      else []
    let out := executeStep step env fcm clip vars
    match out.error with
    | some msg => ⟨pre ++ out.calls, out.clip, out.vars, [i], some (i, step.type, msg), 0⟩
    | none =>
      let post :=
        if postWaitTypes.contains step.type then
          (executeStep { type := "waitForPageLoad" } env fcm out.clip out.vars).calls
        else []
      let r := runLoop env fcm rest (i + 1) out.clip out.vars
      ⟨pre ++ out.calls ++ post ++ [Call.sleep 50] ++ r.calls,
       r.clip, r.vars, i :: r.executed, r.failed, r.passedCount + 1⟩

/-- Per-run result record (`RunResult` of part_002): pass/fail, step counts,
and the failed step (index, type, error) when the run halted. -/
structure RunResult where
  passed : Bool
  totalSteps : Nat
  completedSteps : Nat
  failedStep : Option (Nat × String × String)
deriving Repr, DecidableEq

/-- Output of one `runRecording` call: the engine state after the call, the
run result (`none` when the call was rejected), the protocol call trace, and
the indices of the steps that were executed. -/
structure RunOut where
  state : EngineState
  result : Option RunResult
  calls : List Call
  executed : List Nat
deriving Repr, DecidableEq

/-- `runRecording` (unnamed/part_002 lines 9-188), for detach-free runs:
reject while a session is active; otherwise reset the ephemeral stores, force
the tab to a blank page, attach and enable the protocol domains, run the step
loop, build the `RunResult`, and in the guaranteed cleanup detach and clear
`active`/`tabId` (preserving `aborted`, which stays false without an abort
request). -/
def runRecording (st : EngineState) (steps : List Step) (_tabId : Nat) (env : Env) :
    RunOut :=
  if st.active then ⟨st, none, [], []⟩
  else
    let lp := runLoop env [] steps 0 [] []
    let result : RunResult :=
      match lp.failed with
      | some f => ⟨false, steps.length, f.1, some f⟩
      | none => ⟨true, steps.length, lp.passedCount, none⟩
    ⟨{ active := false, aborted := false, tabId := none, reattachInFlight := false,
       clip := lp.clip, vars := lp.vars, fcm := [] },
     some result,
     [Call.tabsUpdateBlank, .sleep 300, .attach, .enableDomain "Runtime",
      .enableDomain "Page"] ++ lp.calls ++ [.detach],
     lp.executed⟩

-- ── Concrete fixtures shared by witnesses ─────────────────────────────────────

/-- `https://example.com/` as a structured URL. -/
def exampleUrl : Url := ⟨"https://example.com", "/", "", ""⟩

/-- Baseline oracle: nothing resolves, the tab is idle at
`https://example.com/`, pages load normally. -/
def baseEnv : Env where
  objectId := fun _ => none
  rect := fun _ => none
  resolveBox := fun _ => none
  tagName := fun _ => ""
  autocomplete := fun _ => none
  tabStatus := "complete"
  tabUrl := exampleUrl
  tabPendingUrl := none
  settledUrl := exampleUrl
  selectionText := none
  elementValue := fun _ => none
  waitOk := fun _ => true
  pollingHost := false
  readyState := "complete"

/-- The texts passed to `Input.insertText` in a call trace. -/
def insertedTexts (l : List Call) : List String :=
  l.filterMap fun c =>
    match c with
    | Call.insertText t => some t
    | _ => none

-- ── C1: change step on a text input ───────────────────────────────────────────

/-- A change step whose recorded value is 12 characters long. -/
def changeStepLong : Step :=
  { type := "change", selectors := [["#name"]], value := some "hello world!" }

/-- Oracle under which the change target resolves to object 7, a text input. -/
def changeEnv : Env :=
  { baseEnv with objectId := fun _ => some 7, tagName := fun _ => "INPUT" }

/-- C1 (code-bug evidence): on a text input, `execChange` passes
`value.slice(0, 10)` to `Input.insertText` — for the 12-character recorded
value `"hello world!"` the executor inserts only `"hello worl"`, not the
entire recorded value string, contradicting the source's own
"insert full text" comment and the spec. -/
theorem change_inserts_truncated_value :
    insertedTexts (executeStep changeStepLong changeEnv [] [] []).calls
        = [String.take "hello world!" 10] ∧
      String.take "hello world!" 10 = "hello worl" ∧
      "hello worl" ≠ "hello world!" :=
  ⟨rfl, rfl, by decide⟩

-- ── C9: frame-context resolution is constant ──────────────────────────────────

/-- C9: `resolveContext` always selects the main execution context (`null`),
so `executeStep` behaves identically for any step `frame` field and any
frame-context map contents. -/
theorem resolveContext_always_main :
    ∀ (step : Step) (env : Env) (m1 m2 : List (String × Nat)) (f1 f2 : List Nat)
      (clip vars : VarMap),
      resolveContext step m1 = none ∧
      executeStep { step with frame := f1 } env m1 clip vars
        = executeStep { step with frame := f2 } env m2 clip vars := by
  intro step env m1 m2 f1 f2 clip vars
  constructor
  · unfold resolveContext
    split <;> rfl
  · cases step
    rfl

-- ── C10: empty-text paste steps are no-ops ────────────────────────────────────

/-- C10: a `paste` (resp. `pasteVariable`) step whose effective text is empty
— no entry in the run-time map and an empty or absent recorded fallback —
returns successfully without resolving, focusing, clearing, or modifying the
target and without issuing any protocol call. -/
theorem paste_empty_text_is_noop :
    ∀ (step : Step) (env : Env) (fcm : List (String × Nat)) (clip vars : VarMap),
      (step.type = "paste" → mapGet clip step.variableName = none →
        step.snapshotValue = none ∨ step.snapshotValue = some "" →
        executeStep step env fcm clip vars = ⟨none, [], clip, vars⟩) ∧
      (step.type = "pasteVariable" → mapGet vars step.variableName = none →
        step.fallbackValue = none ∨ step.fallbackValue = some "" →
        executeStep step env fcm clip vars = ⟨none, [], clip, vars⟩) := by
  intro step env fcm clip vars
  constructor
  · intro ht hget hsnap
    rcases hsnap with h | h <;> simp [executeStep, ht, execPaste, hget, h]
  · intro ht hget hfb
    rcases hfb with h | h <;> simp [executeStep, ht, execPasteVariable, hget, h]

/-- A paste step with no stored clipboard variable and no recorded fallback. -/
def pasteStepEmpty : Step :=
  { type := "paste", variableName := "x", selectors := [["#t"]] }

/-- Witness for C10: the concrete empty paste step is a pure no-op. -/
theorem paste_empty_text_is_noop_witness :
    executeStep pasteStepEmpty baseEnv [] [] [] = ⟨none, [], [], []⟩ :=
  (paste_empty_text_is_noop pasteStepEmpty baseEnv [] [] []).1 rfl rfl (Or.inl rfl)

-- ── C7: detach handling ───────────────────────────────────────────────────────

/-- C7: for an active session's tab, a detach whose reason is explicit user
cancellation transitions straight to aborted with the reattachment gate
untouched and no episode started; any other reason starts a reattachment
episode, and a further detach while one is in flight is a no-op. -/
theorem onDetach_cancel_vs_reattach :
    ∀ (st : EngineState) (tab : Nat) (reason : String),
      st.active = true → st.tabId = some tab →
      (reason = "canceled_by_user" →
        onDetach st tab reason = ({ st with aborted := true }, false)) ∧
      (reason ≠ "canceled_by_user" → st.reattachInFlight = false →
        onDetach st tab reason = ({ st with reattachInFlight := true }, true)) ∧
      (reason ≠ "canceled_by_user" → st.reattachInFlight = true →
        onDetach st tab reason = (st, false)) := by
  intro st tab reason hact htab
  refine ⟨fun h => ?_, fun h hg => ?_, fun h hg => ?_⟩
  · simp [onDetach, hact, htab, h]
  · simp [onDetach, hact, htab, h, hg]
  · simp [onDetach, hact, htab, h, hg]

/-- An active session on tab 3 with an empty reattachment gate. -/
def lcState : EngineState :=
  { active := true, aborted := false, tabId := some 3, reattachInFlight := false,
    clip := [], vars := [], fcm := [] }

/-- Witness for C7: the cancellation transition at a concrete state. -/
theorem onDetach_cancel_vs_reattach_witness :
    onDetach lcState 3 "canceled_by_user" = ({ lcState with aborted := true }, false) :=
  ((onDetach_cancel_vs_reattach lcState 3 "canceled_by_user") rfl rfl).1 rfl

-- ── C3: at most one active session ────────────────────────────────────────────

/-- C3: `runRecording` called while a session is active is rejected: it
executes no steps, issues no calls, and returns the engine state unchanged. -/
theorem runRecording_active_rejected :
    ∀ (st : EngineState) (steps : List Step) (tab : Nat) (env : Env),
      st.active = true → runRecording st steps tab env = ⟨st, none, [], []⟩ := by
  intro st steps tab env h
  simp [runRecording, h]

/-- An engine state with a session already active. -/
def activeState : EngineState :=
  { active := true, aborted := false, tabId := some 1, reattachInFlight := false,
    clip := [], vars := [], fcm := [] }

/-- Witness for C3: a concrete second `runRecording` call is a no-op. -/
theorem runRecording_active_rejected_witness :
    runRecording activeState [{ type := "navigate", url := some exampleUrl }] 1 baseEnv
      = ⟨activeState, none, [], []⟩ :=
  runRecording_active_rejected activeState _ 1 baseEnv rfl

-- ── Lemmas about the waitForSelector polling loop ─────────────────────────────

/-- A primary scan over candidates that all return `null` keeps
`allPrimaryThrew` at `false` once it is `false`. -/
theorem scanPrimary_notFound_false (out : String → PrimaryOut) :
    ∀ (l : List String) (le : Option Nat),
      (∀ s ∈ l, out s = .notFound) →
      scanPrimary out l false le = (none, false, le) := by
  intro l
  induction l with
  | nil => intro le _; rfl
  | cons s rest ih =>
    intro le h
    have hs := h s (List.mem_cons_self s rest)
    simp only [scanPrimary, hs]
    exact ih le (fun x hx => h x (List.mem_cons_of_mem s hx))

/-- A primary scan over candidates that all return `null` ends with
`allPrimaryThrew = false` (starting from `normalized.length > 0`) and an
unchanged `lastCdpErr`. -/
theorem scanPrimary_all_notFound (out : String → PrimaryOut) :
    ∀ (l : List String) (le : Option Nat),
      (∀ s ∈ l, out s = .notFound) →
      scanPrimary out l (!l.isEmpty) le = (none, false, le) := by
  intro l le h
  cases l with
  | nil => rfl
  | cons s rest =>
    have hs := h s (List.mem_cons_self s rest)
    simp only [scanPrimary, hs, List.isEmpty_cons, Bool.not_false]
    exact scanPrimary_notFound_false out rest le
      (fun x hx => h x (List.mem_cons_of_mem s hx))

/-- A primary scan over a nonempty candidate list in which every attempt
throws keeps `allPrimaryThrew` and ends with some error recorded. -/
theorem scanPrimary_all_err (out : String → PrimaryOut) :
    ∀ (l : List String) (b : Bool) (le : Option Nat),
      l ≠ [] → (∀ s ∈ l, (out s).isErr = true) →
      ∃ e, scanPrimary out l b le = (none, b, some e) := by
  intro l
  induction l with
  | nil => intro b le h _; exact absurd rfl h
  | cons s rest ih =>
    intro b le _ h
    have hs := h s (List.mem_cons_self s rest)
    cases hout : out s with
    | found bx => rw [hout] at hs; exact absurd hs (by simp [PrimaryOut.isErr])
    | notFound => rw [hout] at hs; exact absurd hs (by simp [PrimaryOut.isErr])
    | err e =>
      simp only [scanPrimary, hout]
      cases rest with
      | nil => exact ⟨e, rfl⟩
      | cons r rs =>
        exact ih b (some e) (by simp) (fun x hx => h x (List.mem_cons_of_mem s hx))

/-- A primary scan over a list containing a found candidate returns a box. -/
theorem scanPrimary_has_found (out : String → PrimaryOut) :
    ∀ (l : List String) (b : Bool) (le : Option Nat),
      (∃ s ∈ l, (out s).isFound = true) →
      ∃ bx, (scanPrimary out l b le).1 = some bx := by
  intro l
  induction l with
  | nil => intro b le h; simp at h
  | cons s rest ih =>
    intro b le h
    cases hout : out s with
    | found bx => exact ⟨bx, by simp [scanPrimary, hout]⟩
    | notFound =>
      rcases h with ⟨x, hx, hfx⟩
      rcases List.mem_cons.mp hx with rfl | hx'
      · rw [hout] at hfx; exact absurd hfx (by simp [PrimaryOut.isFound])
      · simpa [scanPrimary, hout] using ih false le ⟨x, hx', hfx⟩
    | err e =>
      rcases h with ⟨x, hx, hfx⟩
      rcases List.mem_cons.mp hx with rfl | hx'
      · rw [hout] at hfx; exact absurd hfx (by simp [PrimaryOut.isFound])
      · simpa [scanPrimary, hout] using ih b (some e) ⟨x, hx', hfx⟩

/-- `findSome?` over a list on which the function is constantly `none`. -/
theorem findSome_none {α β : Type} (f : α → Option β) :
    ∀ (l : List α), (∀ x ∈ l, f x = none) → l.findSome? f = none := by
  intro l
  induction l with
  | nil => intro _; rfl
  | cons x rest ih =>
    intro h
    have hx := h x (List.mem_cons_self x rest)
    simp only [List.findSome?, hx]
    exact ih (fun y hy => h y (List.mem_cons_of_mem x hy))

/-- One "element absent" poll iteration (every primary attempt returns null,
the CDP fallback finds nothing): the loop sleeps and retries with the
consecutive-all-threw counter reset to zero. -/
theorem waitLoop_miss_step (env : WaitEnv) (cands cssCands : List String)
    (timeout iter consec : Nat) (le : Option Nat)
    (hit : 500 * iter < timeout)
    (hp : ∀ s ∈ cands, env.primary iter s = .notFound)
    (hf : ∀ s ∈ cssCands, env.fallback iter s = none) :
    waitLoop env cands cssCands timeout iter consec le
      = waitLoop env cands cssCands timeout (iter + 1) 0 le := by
  rw [waitLoop, dif_pos hit,
    scanPrimary_all_notFound (env.primary iter) cands le hp,
    findSome_none (env.fallback iter) cssCands hf]
  simp

/-- One all-threw poll iteration with the counter at zero: the loop records
the error and retries with the counter at one. -/
theorem waitLoop_first_err_step (env : WaitEnv) (cands cssCands : List String)
    (timeout iter : Nat) (le : Option Nat)
    (hit : 500 * iter < timeout) (hne : cands ≠ [])
    (hp : ∀ s ∈ cands, (env.primary iter s).isErr = true)
    (hf : ∀ s ∈ cssCands, env.fallback iter s = none) :
    ∃ e, waitLoop env cands cssCands timeout iter 0 le
      = waitLoop env cands cssCands timeout (iter + 1) 1 (some e) := by
  have hb : (!cands.isEmpty) = true := by
    cases cands with
    | nil => exact absurd rfl hne
    | cons _ _ => simp
  rcases scanPrimary_all_err (env.primary iter) cands (!cands.isEmpty) le hne hp with ⟨e, hscan⟩
  refine ⟨e, ?_⟩
  rw [waitLoop, dif_pos hit, hscan,
    findSome_none (env.fallback iter) cssCands hf, hb]
  simp

/-- A second consecutive all-threw poll iteration: the loop throws the last
recorded protocol error at this iteration, before sleeping. -/
theorem waitLoop_second_err_throws (env : WaitEnv) (cands cssCands : List String)
    (timeout iter : Nat) (le : Option Nat)
    (hit : 500 * iter < timeout) (hne : cands ≠ [])
    (hp : ∀ s ∈ cands, (env.primary iter s).isErr = true)
    (hf : ∀ s ∈ cssCands, env.fallback iter s = none) :
    ∃ e, waitLoop env cands cssCands timeout iter 1 le
      = .sessionError (some e) iter := by
  have hb : (!cands.isEmpty) = true := by
    cases cands with
    | nil => exact absurd rfl hne
    | cons _ _ => simp
  rcases scanPrimary_all_err (env.primary iter) cands (!cands.isEmpty) le hne hp with ⟨e, hscan⟩
  refine ⟨e, ?_⟩
  rw [waitLoop, dif_pos hit, hscan,
    findSome_none (env.fallback iter) cssCands hf, hb]
  simp

/-- Running `k` "element absent" iterations from the start advances the loop
to iteration `k` with the counter still at zero and the error slot
unchanged. -/
theorem waitLoop_miss_prefix (env : WaitEnv) (cands cssCands : List String)
    (timeout : Nat) (le : Option Nat) :
    ∀ (k : Nat), 500 * k ≤ timeout →
      (∀ i < k, ∀ s ∈ cands, env.primary i s = .notFound) →
      (∀ i < k, ∀ s ∈ cssCands, env.fallback i s = none) →
      waitLoop env cands cssCands timeout 0 0 le
        = waitLoop env cands cssCands timeout k 0 le := by
  intro k
  induction k with
  | zero => intro _ _ _; rfl
  | succ k ih =>
    intro hk hp hf
    have step := waitLoop_miss_step env cands cssCands timeout k 0 le
      (by omega) (hp k (by omega)) (hf k (by omega))
    rw [ih (by omega) (fun i hi => hp i (by omega)) (fun i hi => hf i (by omega)), step]

/-- If the polling loop times out at iteration `n`, the clock has reached the
deadline: `timeout ≤ 500 * n`. -/
theorem waitLoop_timedOut_le (env : WaitEnv) (cands cssCands : List String)
    (timeout : Nat) :
    ∀ (fuel iter consec : Nat) (le : Option Nat) (n : Nat),
      timeout ≤ 500 * iter + 500 * fuel →
      waitLoop env cands cssCands timeout iter consec le = .timedOut n →
      timeout ≤ 500 * n := by
  intro fuel
  induction fuel with
  | zero =>
    intro iter consec le n hb h
    rw [waitLoop] at h
    rw [dif_neg (by omega)] at h
    cases h
    omega
  | succ fuel ih =>
    intro iter consec le n hb h
    by_cases hit : 500 * iter < timeout
    · rw [waitLoop, dif_pos hit] at h
      rcases hscan : scanPrimary (env.primary iter) cands (!cands.isEmpty) le with
        ⟨r1, allThrew, le'⟩
      rw [hscan] at h
      cases r1 with
      | some b => simp at h
      | none =>
        cases hfb : cssCands.findSome? (env.fallback iter) with
        | some b => rw [hfb] at h; simp at h
        | none =>
          rw [hfb] at h
          by_cases hat : allThrew = true
          · by_cases hc : consec + 1 ≥ 2
            · simp [hat, hc] at h
            · simp only [hat, if_true, if_neg hc] at h
              exact ih (iter + 1) (consec + 1) le' n (by omega) h
          · simp only [if_neg hat] at h
            exact ih (iter + 1) 0 le' n (by omega) h
    · rw [waitLoop, dif_neg hit] at h
      cases h
      omega

/-- A poll iteration whose primary scan finds a box returns success at that
iteration. -/
theorem waitLoop_found (env : WaitEnv) (cands cssCands : List String)
    (timeout iter consec : Nat) (le : Option Nat) (b : Box)
    (hit : 500 * iter < timeout)
    (hsc : (scanPrimary (env.primary iter) cands (!cands.isEmpty) le).1 = some b) :
    waitLoop env cands cssCands timeout iter consec le = .success b iter := by
  rcases hscan : scanPrimary (env.primary iter) cands (!cands.isEmpty) le with ⟨r1, a, l⟩
  rw [hscan] at hsc
  simp only at hsc
  subst hsc
  rw [waitLoop, dif_pos hit, hscan]

-- ── C2: fail fast on two consecutive all-error iterations ─────────────────────

/-- C2: if, after `k` normal "element absent" poll iterations, two consecutive
iterations have every primary candidate raise a protocol-level error (with the
CDP fallback finding nothing), `waitForSelector` fails with the underlying
protocol error at the second of those iterations — at clock `500 * (k + 1)`
ms, strictly before the full timeout elapses. -/
theorem waitForSelector_fails_fast_on_session_loss :
    ∀ (env : WaitEnv) (sels : List (List String)) (timeout k : Nat),
      normalizeSelectors sels ≠ [] →
      (∀ i < k, ∀ s ∈ normalizeSelectors sels, env.primary i s = .notFound) →
      (∀ i ≤ k + 1, ∀ s ∈ (normalizeSelectors sels).filter cssEligible,
        env.fallback i s = none) →
      (∀ i, i = k ∨ i = k + 1 → ∀ s ∈ normalizeSelectors sels,
        (env.primary i s).isErr = true) →
      500 * (k + 1) < timeout →
      ∃ e, waitForSelector env sels timeout = .sessionError (some e) (k + 1) ∧
        500 * (k + 1) < timeout := by
  intro env sels timeout k hne hmiss hfb herr htime
  have hdef : waitForSelector env sels timeout
      = waitLoop env (normalizeSelectors sels)
          ((normalizeSelectors sels).filter cssEligible) timeout 0 0 none := rfl
  rw [hdef,
    waitLoop_miss_prefix env (normalizeSelectors sels)
      ((normalizeSelectors sels).filter cssEligible) timeout none k (by omega)
      hmiss (fun i hi => hfb i (by omega))]
  rcases waitLoop_first_err_step env (normalizeSelectors sels)
      ((normalizeSelectors sels).filter cssEligible) timeout k none (by omega) hne
      (herr k (Or.inl rfl)) (hfb k (by omega)) with ⟨e1, hstep⟩
  rw [hstep]
  rcases waitLoop_second_err_throws env (normalizeSelectors sels)
      ((normalizeSelectors sels).filter cssEligible) timeout (k + 1) (some e1) htime hne
      (herr (k + 1) (Or.inr rfl)) (hfb (k + 1) (le_refl _)) with ⟨e2, hthrow⟩
  exact ⟨e2, hthrow, htime⟩

/-- An oracle whose every primary attempt raises protocol error 0 — the
debugging session is gone. -/
def deadEnv : WaitEnv where
  primary := fun _ _ => .err 0
  fallback := fun _ _ => none

/-- Witness for C2: against the dead session, `waitForSelector` with the
default 30 s timeout raises the protocol error at iteration 1 (500 ms). -/
theorem waitForSelector_fails_fast_witness :
    ∃ e, waitForSelector deadEnv [["#x"]] 30000 = .sessionError (some e) 1 ∧
      500 * 1 < 30000 :=
  waitForSelector_fails_fast_on_session_loss deadEnv [["#x"]] 30000 0 (by decide)
    (fun i hi => absurd hi (Nat.not_lt_zero i))
    (fun _ _ s _ => rfl) (fun _ _ s _ => rfl) (by decide)

-- ── C4: success at poll boundaries, poll count before timeout ─────────────────

/-- C4: `waitForSelector` returns success at the first poll boundary at which
a candidate resolves, and whenever it times out it has executed at least
`⌊timeout / POLL_INTERVAL_MS⌋` poll iterations before throwing the timeout
error. -/
theorem waitForSelector_poll_boundary_and_count :
    (∀ (env : WaitEnv) (sels : List (List String)) (timeout k : Nat),
      (∀ i < k, ∀ s ∈ normalizeSelectors sels, env.primary i s = .notFound) →
      (∀ i < k, ∀ s ∈ (normalizeSelectors sels).filter cssEligible,
        env.fallback i s = none) →
      (∃ s ∈ normalizeSelectors sels, (env.primary k s).isFound = true) →
      500 * k < timeout →
      ∃ b, waitForSelector env sels timeout = .success b k) ∧
    (∀ (env : WaitEnv) (sels : List (List String)) (timeout n : Nat),
      waitForSelector env sels timeout = .timedOut n →
      timeout / POLL_INTERVAL_MS ≤ n) := by
  constructor
  · intro env sels timeout k hmiss hfb hfound htime
    have hdef : waitForSelector env sels timeout
        = waitLoop env (normalizeSelectors sels)
            ((normalizeSelectors sels).filter cssEligible) timeout 0 0 none := rfl
    rw [hdef,
      waitLoop_miss_prefix env (normalizeSelectors sels)
        ((normalizeSelectors sels).filter cssEligible) timeout none k (by omega)
        hmiss hfb]
    rcases scanPrimary_has_found (env.primary k) (normalizeSelectors sels)
        (!(normalizeSelectors sels).isEmpty) none hfound with ⟨b, hsc⟩
    exact ⟨b, waitLoop_found env (normalizeSelectors sels)
      ((normalizeSelectors sels).filter cssEligible) timeout k 0 none b htime hsc⟩
  · intro env sels timeout n h
    have hdef : waitForSelector env sels timeout
        = waitLoop env (normalizeSelectors sels)
            ((normalizeSelectors sels).filter cssEligible) timeout 0 0 none := rfl
    rw [hdef] at h
    have hle := waitLoop_timedOut_le env (normalizeSelectors sels)
      ((normalizeSelectors sels).filter cssEligible) timeout timeout 0 0 none n
      (by omega) h
    unfold POLL_INTERVAL_MS
    omega

/-- An oracle whose first primary attempt immediately finds the element. -/
def foundEnv : WaitEnv where
  primary := fun _ _ => .found ⟨0, 0, 5, 5⟩
  fallback := fun _ _ => none

/-- Witness for C4: with the element present from the start,
`waitForSelector` succeeds at poll boundary 0. -/
theorem waitForSelector_poll_witness :
    ∃ b, waitForSelector foundEnv [["#x"]] 30000 = .success b 0 :=
  waitForSelector_poll_boundary_and_count.1 foundEnv [["#x"]] 30000 0
    (fun i hi => absurd hi (Nat.not_lt_zero i))
    (fun i hi => absurd hi (Nat.not_lt_zero i))
    ⟨"#x", by decide, rfl⟩ (by decide)

-- ── Lemmas about the two resolveSelector tiers ────────────────────────────────

/-- Tier 1 on a list whose first found candidate is `s` (everything before it
fails): the result is `s`'s box and exactly the prefix through `s` was
attempted, in order. -/
theorem runTier1_first_found (out : String → PrimaryOut) :
    ∀ (pre : List String) (s : String) (post : List String) (b : Box),
      (∀ x ∈ pre, (out x).isFound = false) → out s = .found b →
      runTier1 out (pre ++ s :: post) = (some b, pre ++ [s]) := by
  intro pre
  induction pre with
  | nil =>
    intro s post b _ hs
    simp [runTier1, hs]
  | cons p rest ih =>
    intro s post b hpre hs
    have hp := hpre p (List.mem_cons_self p rest)
    have hrec := ih s post b (fun x hx => hpre x (List.mem_cons_of_mem p hx)) hs
    cases hout : out p with
    | found bx => rw [hout] at hp; exact absurd hp (by simp [PrimaryOut.isFound])
    | notFound =>
      simp only [List.cons_append, runTier1, hout, List.append_eq, hrec]
    | err e =>
      simp only [List.cons_append, runTier1, hout, List.append_eq, hrec]

/-- Tier 1 returns `none` exactly when no candidate is found, and it then
attempted every candidate in order. -/
theorem runTier1_none (out : String → PrimaryOut) :
    ∀ (l : List String),
      (runTier1 out l).1 = none ↔ ∀ x ∈ l, (out x).isFound = false := by
  intro l
  induction l with
  | nil => simp [runTier1]
  | cons s rest ih =>
    cases hout : out s with
    | found bx =>
      simp [runTier1, hout, PrimaryOut.isFound]
    | notFound =>
      simp only [runTier1, hout, List.mem_cons]
      constructor
      · intro h x hx
        rcases hx with rfl | hx'
        · simp [hout, PrimaryOut.isFound]
        · exact (ih.mp h) x hx'
      · intro h
        exact ih.mpr (fun x hx => h x (Or.inr hx))
    | err e =>
      simp only [runTier1, hout, List.mem_cons]
      constructor
      · intro h x hx
        rcases hx with rfl | hx'
        · simp [hout, PrimaryOut.isErr, PrimaryOut.isFound]
        · exact (ih.mp h) x hx'
      · intro h
        exact ih.mpr (fun x hx => h x (Or.inr hx))

/-- When tier 1 fails, its attempt trace is the whole candidate list. -/
theorem runTier1_none_trace (out : String → PrimaryOut) :
    ∀ (l : List String), (runTier1 out l).1 = none → (runTier1 out l).2 = l := by
  intro l
  induction l with
  | nil => intro _; rfl
  | cons s rest ih =>
    intro h
    cases hout : out s with
    | found bx => rw [runTier1, hout] at h; simp at h
    | notFound =>
      rw [runTier1, hout] at h ⊢
      simp only at h ⊢
      rw [ih h]
    | err e =>
      rw [runTier1, hout] at h ⊢
      simp only at h ⊢
      rw [ih h]

/-- Tier 2 returns `none` exactly when the CDP fallback finds nothing on any
eligible candidate. -/
theorem runTier2_none (out : String → Option Box) :
    ∀ (l : List String),
      (runTier2 out l).1 = none ↔ ∀ x ∈ l, out x = none := by
  intro l
  induction l with
  | nil => simp [runTier2]
  | cons s rest ih =>
    cases hout : out s with
    | some bx =>
      simp [runTier2, hout]
    | none =>
      simp only [runTier2, hout, List.mem_cons]
      constructor
      · intro h x hx
        rcases hx with rfl | hx'
        · exact hout
        · exact (ih.mp h) x hx'
      · intro h
        exact ih.mpr (fun x hx => h x (Or.inr hx))

-- ── C5: resolution order, tier gating, and exhaustive NotFound ────────────────

/-- C5: `resolveSelector` tries candidates in array order and returns the
first success (attempting exactly the prefix through it); the tier-2 native
CDP DOM query is attempted only once every in-page candidate has been
attempted and failed; and the thrown NotFound error lists every candidate and
occurs if and only if both tiers are exhausted without success. -/
theorem resolveSelector_order_and_exhaustion :
    (∀ (env : ResolveEnv) (sels : List (List String)) (pre : List String)
        (s : String) (post : List String) (b : Box),
        normalizeSelectors sels = pre ++ s :: post →
        (∀ x ∈ pre, (env.tier1 x).isFound = false) →
        env.tier1 s = .found b →
        resolveSelector env sels = ⟨.ok b, pre ++ [s], []⟩) ∧
    (∀ (env : ResolveEnv) (sels : List (List String)),
        (resolveSelector env sels).tier2Tried ≠ [] →
        (resolveSelector env sels).tier1Tried = normalizeSelectors sels) ∧
    (∀ (env : ResolveEnv) (sels : List (List String)),
        ((resolveSelector env sels).result
            = .notFoundErr (normalizeSelectors sels) ↔
          (∀ x ∈ normalizeSelectors sels, (env.tier1 x).isFound = false) ∧
          (∀ x ∈ (normalizeSelectors sels).filter cssEligible,
            env.tier2 x = none)) ∧
        (∀ l, (resolveSelector env sels).result = .notFoundErr l →
          l = normalizeSelectors sels)) := by
  refine ⟨?_, ?_, ?_⟩
  · intro env sels pre s post b hnorm hpre hs
    simp only [resolveSelector]
    rw [hnorm, runTier1_first_found env.tier1 pre s post b hpre hs]
  · intro env sels h2
    simp only [resolveSelector] at h2 ⊢
    rcases h1 : runTier1 env.tier1 (normalizeSelectors sels) with ⟨r1, tr1⟩
    cases r1 with
    | some b => rw [h1] at h2; simp at h2
    | none =>
      have htr : tr1 = normalizeSelectors sels := by
        have := runTier1_none_trace env.tier1 (normalizeSelectors sels)
          (by rw [h1])
        rw [h1] at this
        exact this
      rcases h2' : runTier2 env.tier2 ((normalizeSelectors sels).filter cssEligible)
        with ⟨r2, tr2⟩
      cases r2 with
      | some b => simp [h2', htr]
      | none => simp [h2', htr]
  · intro env sels
    constructor
    · simp only [resolveSelector]
      rcases h1 : runTier1 env.tier1 (normalizeSelectors sels) with ⟨r1, tr1⟩
      rcases h2 : runTier2 env.tier2 ((normalizeSelectors sels).filter cssEligible)
        with ⟨r2, tr2⟩
      constructor
      · intro h
        cases r1 with
        | some b => simp [h1] at h
        | none =>
          cases r2 with
          | some b => simp [h1, h2] at h
          | none =>
            refine ⟨(runTier1_none env.tier1 _).mp (by rw [h1]),
              (runTier2_none env.tier2 _).mp (by rw [h2])⟩
      · intro ⟨ha, hb⟩
        have hr1 : r1 = none := by
          have := (runTier1_none env.tier1 (normalizeSelectors sels)).mpr ha
          rw [h1] at this
          exact this
        have hr2 : r2 = none := by
          have := (runTier2_none env.tier2
            ((normalizeSelectors sels).filter cssEligible)).mpr hb
          rw [h2] at this
          exact this
        subst hr1; subst hr2
        simp [h1, h2]
    · intro l h
      simp only [resolveSelector] at h
      rcases h1 : runTier1 env.tier1 (normalizeSelectors sels) with ⟨r1, tr1⟩
      rw [h1] at h
      cases r1 with
      | some b => simp at h
      | none =>
        rcases h2 : runTier2 env.tier2 ((normalizeSelectors sels).filter cssEligible)
          with ⟨r2, tr2⟩
        cases r2 with
        | some b => rw [h2] at h; simp at h
        | none =>
          rw [h2] at h
          simp at h
          exact h.symm

/-- An oracle whose tier-1 finds `#b` only, on a three-candidate list. -/
def orderEnv : ResolveEnv where
  tier1 := fun s => if s = "#b" then .found ⟨1, 2, 3, 4⟩ else .notFound
  tier2 := fun _ => none

/-- Witness for C5: the first-success branch at a concrete candidate list —
`#a` is attempted and fails, `#b` succeeds, `#c` is never attempted, tier 2
is never attempted. -/
theorem resolveSelector_order_witness :
    resolveSelector orderEnv [["#a"], ["#b"], ["#c"]]
      = ⟨.ok ⟨1, 2, 3, 4⟩, ["#a", "#b"], []⟩ :=
  resolveSelector_order_and_exhaustion.1 orderEnv [["#a"], ["#b"], ["#c"]]
    ["#a"] "#b" ["#c"] ⟨1, 2, 3, 4⟩ rfl (by decide) (by decide)

-- ── C6: click vs doubleClick event sequences ──────────────────────────────────

/-- A doubleClick step on a resolvable element. -/
def dblStep : Step := { type := "doubleClick", selectors := [["#btn"]] }

/-- Oracle under which `#btn` resolves to object 5 with a fixed rect. -/
def clickEnv : Env :=
  { baseEnv with objectId := fun _ => some 5, rect := fun _ => some ⟨10, 20, 30, 40⟩ }

/-- C6 counterexample: for a concrete doubleClick step whose element resolves,
the executor dispatches neither the explicit focus call, nor the 80 ms settle
delay, nor the synthetic DOM mouse events that the claim requires for every
doubleClick. -/
theorem doubleClick_lacks_focus_settle_synthetic :
    Call.callFunctionOn 5 "focus" ∉ (executeStep dblStep clickEnv [] [] []).calls ∧
    Call.sleep 80 ∉ (executeStep dblStep clickEnv [] [] []).calls ∧
    Call.callFunctionOn 5 "syntheticMouseEvents"
      ∉ (executeStep dblStep clickEnv [] [] []).calls := by
  decide

/-- C6 amended: for a click step whose element resolves to an object
reference (no recorded press duration, no asserted navigation), the executor
dispatches move, then the 80 ms settle delay, then the explicit focus call,
then press and release, then the synthetic DOM mouse events; a doubleClick
step instead dispatches move then press/release twice with click counts 1
then 2, with no settle delay, focus call, or synthetic events. -/
theorem click_and_doubleClick_sequences :
    ∀ (step : Step) (env : Env) (o : Nat) (b : Box) (fcm : List (String × Nat))
      (clip vars : VarMap),
      env.objectId step.selectors = some o →
      env.rect o = some b →
      step.duration = none →
      step.assertedEvents = [] →
      (step.type = "click" →
        executeStep step env fcm clip vars = ⟨none,
          [.resolveObject step.selectors, .callFunctionOn o "scrollIntoView",
           .sleep 100, .callFunctionOn o "getRect",
           .dispatchMouse "mouseMoved" (b.x + step.offsetX.getD 0)
             (b.y + step.offsetY.getD 0) "none" 0,
           .sleep 80,
           .callFunctionOn o "focus",
           .dispatchMouse "mousePressed" (b.x + step.offsetX.getD 0)
             (b.y + step.offsetY.getD 0) "left" 1,
           .dispatchMouse "mouseReleased" (b.x + step.offsetX.getD 0)
             (b.y + step.offsetY.getD 0) "left" 1,
           .callFunctionOn o "syntheticMouseEvents"], clip, vars⟩) ∧
      (step.type = "doubleClick" →
        executeStep step env fcm clip vars = ⟨none,
          [.resolveObject step.selectors, .callFunctionOn o "scrollIntoView",
           .sleep 100, .callFunctionOn o "getRect",
           .dispatchMouse "mouseMoved" (b.x + step.offsetX.getD 0)
             (b.y + step.offsetY.getD 0) "none" 0,
           .dispatchMouse "mousePressed" (b.x + step.offsetX.getD 0)
             (b.y + step.offsetY.getD 0) "left" 1,
           .dispatchMouse "mouseReleased" (b.x + step.offsetX.getD 0)
             (b.y + step.offsetY.getD 0) "left" 1,
           .dispatchMouse "mousePressed" (b.x + step.offsetX.getD 0)
             (b.y + step.offsetY.getD 0) "left" 2,
           .dispatchMouse "mouseReleased" (b.x + step.offsetX.getD 0)
             (b.y + step.offsetY.getD 0) "left" 2], clip, vars⟩) := by
  intro step env o b fcm clip vars ho hrect hdur hev
  constructor
  · intro ht
    simp [executeStep, ht, execClick, clickPoint, ho, hrect, hdur, hev]
  · intro ht
    simp [executeStep, ht, execDoubleClick, clickPoint, ho, hrect]

/-- Witness for C6 (amended): the click sequence at a concrete step. -/
theorem click_and_doubleClick_sequences_witness :
    executeStep { type := "click", selectors := [["#btn"]] } clickEnv [] [] []
      = ⟨none,
        [.resolveObject [["#btn"]], .callFunctionOn 5 "scrollIntoView",
         .sleep 100, .callFunctionOn 5 "getRect",
         .dispatchMouse "mouseMoved" (10 + 0) (20 + 0) "none" 0,
         .sleep 80,
         .callFunctionOn 5 "focus",
         .dispatchMouse "mousePressed" (10 + 0) (20 + 0) "left" 1,
         .dispatchMouse "mouseReleased" (10 + 0) (20 + 0) "left" 1,
         .callFunctionOn 5 "syntheticMouseEvents"], [], []⟩ :=
  (click_and_doubleClick_sequences { type := "click", selectors := [["#btn"]] }
    clickEnv 5 ⟨10, 20, 30, 40⟩ [] [] [] rfl rfl rfl rfl).1 rfl

-- ── C8: navigate to the tab's current URL is skipped, the run continues ──────

/-- C8: replaying a two-step recording `[navigate(u), click]` against an idle
tab already at `u` (URLs compared normalized to origin+path+query, fragment
ignored) issues no `Page.navigate` call, does not fail the run, and still
executes the click (both steps execute, the run passes). -/
theorem navigate_idle_at_target_skips_navigate :
    ∀ (st : EngineState) (nav click : Step) (env : Env) (tab : Nat) (u : Url)
      (o : Nat) (b : Box),
      st.active = false →
      nav.type = "navigate" → nav.url = some u →
      env.tabStatus ≠ "loading" →
      normalizeUrl env.tabUrl = normalizeUrl u →
      env.pollingHost = false → env.readyState = "complete" →
      click.type = "click" → click.selectors ≠ [] →
      env.objectId click.selectors = some o → env.rect o = some b →
      click.duration = none → click.assertedEvents = [] →
      (∀ u', Call.pageNavigate u' ∉ (runRecording st [nav, click] tab env).calls) ∧
      (runRecording st [nav, click] tab env).result = some ⟨true, 2, 2, none⟩ ∧
      Call.dispatchMouse "mousePressed" (b.x + click.offsetX.getD 0)
          (b.y + click.offsetY.getD 0) "left" 1
        ∈ (runRecording st [nav, click] tab env).calls ∧
      (runRecording st [nav, click] tab env).executed = [0, 1] := by
  intro st nav click env tab u o b hact hnavt hnavu hstatus hurl hpoll hready
    hct hsel ho hrect hdur hev
  have e1 : executeStep nav env [] [] [] = ⟨none, [.tabsGet, .sleep 300], [], []⟩ := by
    simp [executeStep, hnavt, execNavigate, hnavu, hstatus, hurl]
  have e2 : executeStep { type := "waitForPageLoad" } env [] [] []
      = ⟨none, [.tabsGet, .runtimeEvaluate "readyState"], [], []⟩ := by
    simp [executeStep, execWaitForPageLoad, hpoll, hready]
  have e3 : (executeStep { type := "waitForElement", selectors := click.selectors }
      env [] [] []).calls = [.waitForSel click.selectors] := by
    simp [executeStep, execWaitForElement]
  have e4 : executeStep click env [] [] [] = ⟨none,
      [.resolveObject click.selectors, .callFunctionOn o "scrollIntoView",
       .sleep 100, .callFunctionOn o "getRect",
       .dispatchMouse "mouseMoved" (b.x + click.offsetX.getD 0)
         (b.y + click.offsetY.getD 0) "none" 0,
       .sleep 80,
       .callFunctionOn o "focus",
       .dispatchMouse "mousePressed" (b.x + click.offsetX.getD 0)
         (b.y + click.offsetY.getD 0) "left" 1,
       .dispatchMouse "mouseReleased" (b.x + click.offsetX.getD 0)
         (b.y + click.offsetY.getD 0) "left" 1,
       .callFunctionOn o "syntheticMouseEvents"], [], []⟩ := by
    simp [executeStep, hct, execClick, clickPoint, ho, hrect, hdur, hev]
  have hlp : runLoop env [] [nav, click] 0 [] [] =
      ⟨[.tabsGet, .sleep 300, .tabsGet, .runtimeEvaluate "readyState", .sleep 50,
        .waitForSel click.selectors,
        .resolveObject click.selectors, .callFunctionOn o "scrollIntoView",
        .sleep 100, .callFunctionOn o "getRect",
        .dispatchMouse "mouseMoved" (b.x + click.offsetX.getD 0)
          (b.y + click.offsetY.getD 0) "none" 0,
        .sleep 80,
        .callFunctionOn o "focus",
        .dispatchMouse "mousePressed" (b.x + click.offsetX.getD 0)
          (b.y + click.offsetY.getD 0) "left" 1,
        .dispatchMouse "mouseReleased" (b.x + click.offsetX.getD 0)
          (b.y + click.offsetY.getD 0) "left" 1,
        .callFunctionOn o "syntheticMouseEvents", .sleep 50],
       [], [], [0, 1], none, 2⟩ := by
    simp [runLoop, preWaitTypes, postWaitTypes, hnavt, hct, hsel, e1, e2, e3, e4]
  refine ⟨?_, ?_, ?_, ?_⟩ <;> simp [runRecording, hact, hlp]

/-- An idle engine state. -/
def idleSt : EngineState :=
  { active := false, aborted := false, tabId := none, reattachInFlight := false,
    clip := [], vars := [], fcm := [] }

/-- The navigate step of the C8 scenario. -/
def navW : Step := { type := "navigate", url := some exampleUrl }

/-- The click step of the C8 scenario. -/
def clickW : Step := { type := "click", selectors := [["#submit"]] }

/-- Oracle for the C8 scenario: tab already idle at `https://example.com/`,
`#submit` resolves. -/
def c8Env : Env :=
  { baseEnv with objectId := fun _ => some 5, rect := fun _ => some ⟨10, 20, 30, 40⟩ }

/-- Witness for C8: the concrete two-step run executes both steps. -/
theorem navigate_idle_at_target_skips_navigate_witness :
    (runRecording idleSt [navW, clickW] 1 c8Env).executed = [0, 1] :=
  (navigate_idle_at_target_skips_navigate idleSt navW clickW c8Env 1 exampleUrl
    5 ⟨10, 20, 30, 40⟩ rfl rfl rfl (by decide) rfl rfl rfl rfl (by decide)
    rfl rfl rfl rfl).2.2.2

end ArmaReplay
